import Mathlib

/-!
Verification of the job-map renderer (`src/Server3-Maps.py`).

The file shallowly embeds the two MCP tools `render_jobs_map` (location-only
policy) and `render_jobs_map_by_coordinates` (coordinate-preferring policy)
together with their helpers `_marker_label`, `_encode_location` and
`_build_map_url`, and proves or refutes the specified properties.

Modelling conventions:
* A Python job dict becomes the structure `Job`; a field is `none` when the
  key is absent.  `latitude`/`longitude` carry the printed decimal form of
  the numeric value (`some s` models a value accepted by
  `isinstance(x, (int, float))`, whose f-string rendering is `s`; `none`
  models an absent or non-numeric value, which the code treats identically).
* Python `str.strip()` is modelled at character level by `pyStrip`, and
  `str.replace` with a one-character pattern by `pyReplaceChar`.
* A dict handed to `json.dumps` becomes an insertion-ordered association
  list `List (String × JVal)`; the serialized bytes themselves are not
  modelled, only the key/value content and its order.
* The module-level `GOOGLE_MAPS_API_KEY` becomes an explicit
  `Option String` argument; `keyMissing` is Python's truthiness test
  `not GOOGLE_MAPS_API_KEY` (unset or empty).
-/

/-- A job-offer record: one entry of the `jobs` list handed to the tools.
Each field is `none` when the corresponding dict key is absent;
`latitude`/`longitude` hold the printed decimal form of the numeric value
and are `none` when the field is absent or not an `int`/`float`. -/
structure Job where
  title : Option String := none
  company : Option String := none
  location : Option String := none
  latitude : Option String := none
  longitude : Option String := none
  url : Option String := none
deriving Repr, DecidableEq

/-- A JSON value as produced by the tools: strings, counters, and the array
of legend rows (each row an insertion-ordered list of key/value pairs). -/
inductive JVal where
  | s (v : String)
  | n (v : Nat)
  | arr (rows : List (List (String × JVal)))

/-- Char-level model of Python `str.strip()`: drop whitespace from both ends. -/
def pyStrip (s : String) : String :=
  String.mk (((s.data.dropWhile Char.isWhitespace).reverse.dropWhile
    Char.isWhitespace).reverse)

/-- Char-level model of Python `str.replace` with a one-character pattern:
every occurrence of `pat` becomes `rep`, every other character is kept. -/
def pyReplaceChar (pat : Char) (rep : List Char) : List Char → List Char
  | [] => []
  | c :: cs => (if c = pat then rep else [c]) ++ pyReplaceChar pat rep cs

/-- `_marker_label` from the source:
`return str(index) if index <= 9 else chr(64 + index)`. -/
def _marker_label (index : Nat) : String :=
  if index ≤ 9 then toString index else String.mk [Char.ofNat (64 + index)]

/-- `_encode_location` from the source:
`return location.strip().replace(" ", "+").replace(",", "%2C")`. -/
def _encode_location (location : String) : String :=
  String.mk (pyReplaceChar ',' ['%', '2', 'C']
    (pyReplaceChar ' ' ['+'] (pyStrip location).data))

/-- The stripped location with the `job.get("location", "")` default, as
computed at the top of both placement loops. -/
def trimmedLoc (j : Job) : String := pyStrip (j.location.getD "")

/-- One marker query segment, the f-string
`f"markers=color:red%7Clabel:{label}%7C{rendered}"` used by both tools. -/
def markerPart (label rendered : String) : String :=
  "markers=color:red%7Clabel:" ++ label ++ "%7C" ++ rendered

/-- The literal URL prefix shared by both tools:
endpoint plus the fixed `size` and `maptype` parameters. -/
def baseUrl : String :=
  "https://maps.googleapis.com/maps/api/staticmap?size=700x420&maptype=roadmap&"

/-- The `markers_parts` list built by the loop of `_build_map_url`:
`for i, job in enumerate(jobs, 1)`, skipping jobs whose stripped location is
empty, otherwise appending the marker segment for label `_marker_label(i)`. -/
def _build_markers_parts (jobs : List Job) : List String :=
  (List.enumFrom 1 jobs).filterMap fun p =>
    let location := trimmedLoc p.2
    if location = "" then none
    else some (markerPart (_marker_label p.1) (_encode_location location))

/-- `_build_map_url` from the source, with the module-level key passed in:
prefix, `&`-joined markers, then `&key=`. -/
def _build_map_url (key : String) (jobs : List Job) : String :=
  baseUrl ++ String.intercalate "&" (_build_markers_parts jobs) ++ "&key=" ++ key

/-- Python truthiness of the configured key: `not GOOGLE_MAPS_API_KEY` holds
when the variable is unset (`None`) or the empty string. -/
def keyMissing : Option String → Bool
  | none => true
  | some k => k == ""

/-- One row of the `structured_jobs` list: the dict literal built for job `j`
at zero-based position `i` of the `valid_jobs` list. -/
def legendRow (i : Nat) (j : Job) : List (String × JVal) :=
  [("number", JVal.s (_marker_label (i + 1))),
   ("title", JVal.s (j.title.getD "N/A")),
   ("company", JVal.s (j.company.getD "N/A")),
   ("location", JVal.s (j.location.getD "N/A")),
   ("url", JVal.s (j.url.getD ""))]

/-- The `structured_jobs` comprehension: `enumerate(valid_jobs)` (zero-based)
with label `_marker_label(i + 1)` — shared verbatim by both tools. -/
def structured_jobs (jobs : List Job) : List (List (String × JVal)) :=
  (List.enum jobs).map fun p => legendRow p.1 p.2

/-- `render_jobs_map` (location-only policy, structured output): the dict
handed to `json.dumps`, in insertion order. -/
def render_jobs_map (key : Option String) (jobs : List Job) :
    List (String × JVal) :=
  if keyMissing key then
    [("status", JVal.s "error"),
     ("error", JVal.s "GOOGLE_MAPS_API_KEY not configured on the server.")]
  else if jobs.isEmpty then
    [("status", JVal.s "error"), ("error", JVal.s "No jobs provided.")]
  else
    let valid_jobs := jobs.filter fun j => trimmedLoc j != ""
    if valid_jobs.isEmpty then
      [("status", JVal.s "error"),
       ("error", JVal.s "No valid locations found in the job list.")]
    else
      [("map_url", JVal.s (_build_map_url (key.getD "") valid_jobs)),
       ("total", JVal.n valid_jobs.length),
       ("jobs", JVal.arr (structured_jobs valid_jobs))]

/-- The three-way branch of the coordinate-preferring loop body: both
coordinates numeric → place by coordinates; else non-empty stripped
location → place by encoded text; else exclude. -/
inductive Placement where
  | coords (lat lng : String)
  | text (encoded : String)
  | excluded
deriving Repr, DecidableEq

/-- The `if isinstance(lat, ...) and isinstance(lng, ...) / elif location /
else` classification of one job inside `render_jobs_map_by_coordinates`. -/
def placeJob (j : Job) : Placement :=
  match j.latitude, j.longitude with
  | some la, some ln => Placement.coords la ln
  | _, _ =>
      if trimmedLoc j ≠ "" then Placement.text (_encode_location (trimmedLoc j))
      else Placement.excluded

/-- True exactly on the `excluded` branch. -/
def Placement.isExcluded : Placement → Bool
  | .excluded => true
  | _ => false

/-- True exactly on the `coords` branch. -/
def Placement.isCoords : Placement → Bool
  | .coords _ _ => true
  | _ => false

/-- True exactly on the `text` branch. -/
def Placement.isText : Placement → Bool
  | .text _ => true
  | _ => false

/-- The loop state of `render_jobs_map_by_coordinates`: the five local
accumulators initialised before the `for` loop. -/
structure CoordState where
  markers_parts : List String
  valid_jobs : List Job
  by_coordinates : Nat
  by_location : Nat
  skipped : Nat
deriving Repr, DecidableEq

/-- One iteration of `for i, job in enumerate(jobs, 1)` in
`render_jobs_map_by_coordinates`: `p.1` is the one-based index `i`.
On the coordinate branch the marker renders `f"{lat},{lng}"` raw;
on the text branch it renders the encoded location. -/
def coordStep (st : CoordState) (p : Nat × Job) : CoordState :=
  match placeJob p.2 with
  | Placement.coords la ln =>
      { st with
        markers_parts :=
          st.markers_parts ++ [markerPart (_marker_label p.1) (la ++ "," ++ ln)],
        valid_jobs := st.valid_jobs ++ [p.2],
        by_coordinates := st.by_coordinates + 1 }
  | Placement.text enc =>
      { st with
        markers_parts := st.markers_parts ++ [markerPart (_marker_label p.1) enc],
        valid_jobs := st.valid_jobs ++ [p.2],
        by_location := st.by_location + 1 }
  | Placement.excluded => { st with skipped := st.skipped + 1 }

/-- The whole placement loop of `render_jobs_map_by_coordinates`, run from the
empty initial state over `enumerate(jobs, 1)`. -/
def coordScan (jobs : List Job) : CoordState :=
  (List.enumFrom 1 jobs).foldl coordStep ⟨[], [], 0, 0, 0⟩

/-- `render_jobs_map_by_coordinates` (coordinate-preferring policy,
structured output): the dict handed to `json.dumps`, in insertion order. -/
def render_jobs_map_by_coordinates (key : Option String) (jobs : List Job) :
    List (String × JVal) :=
  if keyMissing key then
    [("status", JVal.s "error"),
     ("error", JVal.s "GOOGLE_MAPS_API_KEY not configured on the server.")]
  else if jobs.isEmpty then
    [("status", JVal.s "error"), ("error", JVal.s "No jobs provided.")]
  else
    let st := coordScan jobs
    if st.valid_jobs.isEmpty then
      [("status", JVal.s "error"), ("skipped", JVal.n st.skipped),
       ("error", JVal.s "No jobs could be placed on the map.")]
    else
      [("map_url", JVal.s (baseUrl ++ String.intercalate "&" st.markers_parts
          ++ "&key=" ++ key.getD "")),
       ("total", JVal.n st.valid_jobs.length),
       ("by_coordinates", JVal.n st.by_coordinates),
       ("by_location", JVal.n st.by_location),
       ("skipped", JVal.n st.skipped),
       ("jobs", JVal.arr (structured_jobs st.valid_jobs))]

/-- Modelled from the spec: the narrative-mode legend line (spec §4.5 mode 1) —
label, title (linked when a job URL exists), company, location display,
with the shared placeholder defaulting rule. -/
def legendLine (i : Nat) (j : Job) : String :=
  _marker_label (i + 1) ++ ". "
    ++ (if j.url.getD "" == "" then j.title.getD "N/A"
        else "[" ++ j.title.getD "N/A" ++ "](" ++ j.url.getD "" ++ ")")
    ++ " - " ++ j.company.getD "N/A" ++ " - " ++ j.location.getD "N/A"

/-- Result of a text-producing formatter variant: either a mode-appropriate
error message or a successful body carrying the built map URL. -/
inductive TextResult where
  | err (msg : String)
  | ok (map_url : String) (body : String)

/-- Modelled from the spec: the narrative-mode formatter variant of the
location-only pipeline (a repository variant not under `src/`): same key and
emptiness checks, same placement pass and URL builder, output as a prose
block with the image reference followed by one legend line per placement;
every anticipated failure is a returned message, never a URL (§4.5, §7). -/
def render_jobs_map_narrative (key : Option String) (jobs : List Job) :
    TextResult :=
  if keyMissing key then
    TextResult.err "GOOGLE_MAPS_API_KEY not configured on the server."
  else if jobs.isEmpty then TextResult.err "No jobs provided."
  else
    let valid_jobs := jobs.filter fun j => trimmedLoc j != ""
    if valid_jobs.isEmpty then
      TextResult.err "No valid locations found in the job list."
    else
      let url := _build_map_url (key.getD "") valid_jobs
      TextResult.ok url ("![Job Map](" ++ url ++ ")\n"
        ++ String.intercalate "\n"
            ((List.enum valid_jobs).map fun p => legendLine p.1 p.2))

/-- Modelled from the spec: the document-mode formatter variant of the
location-only pipeline (a repository variant not under `src/`): heading with
the placed-job count, an image element referencing the map URL, and one table
row per placement in order; failures are returned messages (§4.5, §7). -/
def render_jobs_map_document (key : Option String) (jobs : List Job) :
    TextResult :=
  if keyMissing key then
    TextResult.err "GOOGLE_MAPS_API_KEY not configured on the server."
  else if jobs.isEmpty then TextResult.err "No jobs provided."
  else
    let valid_jobs := jobs.filter fun j => trimmedLoc j != ""
    if valid_jobs.isEmpty then
      TextResult.err "No valid locations found in the job list."
    else
      let url := _build_map_url (key.getD "") valid_jobs
      TextResult.ok url ("<h2>" ++ toString valid_jobs.length
        ++ " jobs</h2><img src=" ++ url ++ "/><table>"
        ++ String.intercalate ""
            ((List.enum valid_jobs).map fun p =>
              "<tr><td>" ++ _marker_label (p.1 + 1) ++ "</td><td>"
                ++ p.2.title.getD "N/A" ++ "</td><td>"
                ++ p.2.company.getD "N/A" ++ "</td><td>"
                ++ p.2.location.getD "N/A" ++ "</td></tr>")
        ++ "</table>")

/-- The (label, renderedLocation) pairs emitted by the coordinate-preferring
loop when the one-based enumeration starts at `n`: the non-excluded jobs in
order, labelled by their original position. -/
def coordPlacementsFrom (n : Nat) : List Job → List (String × String)
  | [] => []
  | j :: js =>
      match placeJob j with
      | Placement.coords la ln =>
          (_marker_label n, la ++ "," ++ ln) :: coordPlacementsFrom (n + 1) js
      | Placement.text enc =>
          (_marker_label n, enc) :: coordPlacementsFrom (n + 1) js
      | Placement.excluded => coordPlacementsFrom (n + 1) js

/-- The labelled placements of the coordinate-preferring loop, starting from
original position 1 as `enumerate(jobs, 1)` does. -/
def coordPlacements (jobs : List Job) : List (String × String) :=
  coordPlacementsFrom 1 jobs

/-- The (label, renderedLocation) pairs of the location-only builder
`_build_map_url`: retained jobs in order with their encoded locations. -/
def locPlacements (jobs : List Job) : List (String × String) :=
  (List.enumFrom 1 jobs).filterMap fun p =>
    if trimmedLoc p.2 = "" then none
    else some (_marker_label p.1, _encode_location (trimmedLoc p.2))

/-- The "number" labels of a list of legend rows, in row order. -/
def legendNumbers (rows : List (List (String × JVal))) : List String :=
  rows.filterMap fun row =>
    match List.lookup "number" row with
    | some (JVal.s v) => some v
    | _ => none

/-- A structured result is an error envelope carrying no map URL. -/
def isErrorNoUrl (r : List (String × JVal)) : Prop :=
  List.lookup "status" r = some (JVal.s "error")
    ∧ List.lookup "map_url" r = none

/-- A job record with no fields at all: no coordinates and no location. -/
def jobBlank : Job := {}

/-- A job with only a location string. -/
def jobRome : Job :=
  { title := some "Dev", company := some "Acme", location := some "Rome" }

/-- A job with numeric coordinates and also a location string. -/
def jobCoords : Job :=
  { title := some "Eng", company := some "Beta",
    location := some "Milano, Italy",
    latitude := some "41.9", longitude := some "12.5" }

/-- A job with numeric coordinates but no location string at all: it is
placeable under the coordinate-preferring policy only. -/
def jobCoordsOnly : Job :=
  { title := some "Ops", latitude := some "41.9", longitude := some "12.5" }

lemma pyReplaceChar_append (pat : Char) (rep xs ys : List Char) :
    pyReplaceChar pat rep (xs ++ ys)
      = pyReplaceChar pat rep xs ++ pyReplaceChar pat rep ys := by
  induction xs with
  | nil => rfl
  | cons c cs ih => simp [pyReplaceChar, ih]

lemma encode_data_eq (l : List Char) :
    pyReplaceChar ',' ['%', '2', 'C'] (pyReplaceChar ' ' ['+'] l)
      = l.flatMap fun c =>
          if c = ' ' then ['+'] else if c = ',' then ['%', '2', 'C'] else [c] := by
  induction l with
  | nil => rfl
  | cons c cs ih =>
    by_cases h1 : c = ' '
    · subst h1; simp [pyReplaceChar, ih]
    · by_cases h2 : c = ','
      · subst h2; simp [pyReplaceChar, ih]
      · simp [pyReplaceChar, h1, h2, ih]

lemma coordScan_go (jobs : List Job) : ∀ (n : Nat) (st : CoordState),
    (List.enumFrom n jobs).foldl coordStep st =
      { markers_parts := st.markers_parts
          ++ (coordPlacementsFrom n jobs).map fun p => markerPart p.1 p.2,
        valid_jobs := st.valid_jobs ++ jobs.filter fun j => !(placeJob j).isExcluded,
        by_coordinates := st.by_coordinates
          + (jobs.filter fun j => (placeJob j).isCoords).length,
        by_location := st.by_location
          + (jobs.filter fun j => (placeJob j).isText).length,
        skipped := st.skipped
          + (jobs.filter fun j => (placeJob j).isExcluded).length } := by
  induction jobs with
  | nil => intro n st; simp [coordPlacementsFrom, List.enumFrom]
  | cons j js ih =>
    intro n st
    cases hp : placeJob j with
    | coords la ln =>
      simp only [List.enumFrom, List.foldl, coordStep, hp, coordPlacementsFrom,
        ih, Placement.isExcluded, Placement.isCoords, Placement.isText,
        List.filter_cons, List.map_cons, CoordState.mk.injEq]
      refine ⟨by simp [List.append_assoc], by simp, by simp +arith, by simp +arith, by simp +arith⟩
    | text enc =>
      simp only [List.enumFrom, List.foldl, coordStep, hp, coordPlacementsFrom,
        ih, Placement.isExcluded, Placement.isCoords, Placement.isText,
        List.filter_cons, List.map_cons, CoordState.mk.injEq]
      refine ⟨by simp [List.append_assoc], by simp, by simp +arith, by simp +arith, by simp +arith⟩
    | excluded =>
      simp only [List.enumFrom, List.foldl, coordStep, hp, coordPlacementsFrom,
        ih, Placement.isExcluded, Placement.isCoords, Placement.isText,
        List.filter_cons, CoordState.mk.injEq]
      refine ⟨by simp, by simp, by simp +arith, by simp +arith, by simp +arith⟩

lemma coordScan_eq (jobs : List Job) :
    coordScan jobs =
      { markers_parts := (coordPlacements jobs).map fun p => markerPart p.1 p.2,
        valid_jobs := jobs.filter fun j => !(placeJob j).isExcluded,
        by_coordinates := (jobs.filter fun j => (placeJob j).isCoords).length,
        by_location := (jobs.filter fun j => (placeJob j).isText).length,
        skipped := (jobs.filter fun j => (placeJob j).isExcluded).length } := by
  rw [coordScan, coordScan_go]
  simp [coordPlacements]

@[simp] lemma isCoords_coords (la ln : String) :
    (Placement.coords la ln).isCoords = true := rfl

@[simp] lemma isText_coords (la ln : String) :
    (Placement.coords la ln).isText = false := rfl

@[simp] lemma isExcluded_coords (la ln : String) :
    (Placement.coords la ln).isExcluded = false := rfl

@[simp] lemma isCoords_text (e : String) : (Placement.text e).isCoords = false := rfl

@[simp] lemma isText_text (e : String) : (Placement.text e).isText = true := rfl

@[simp] lemma isExcluded_text (e : String) :
    (Placement.text e).isExcluded = false := rfl

@[simp] lemma isCoords_excluded : Placement.excluded.isCoords = false := rfl

@[simp] lemma isText_excluded : Placement.excluded.isText = false := rfl

@[simp] lemma isExcluded_excluded : Placement.excluded.isExcluded = true := rfl

lemma placed_length (jobs : List Job) :
    (jobs.filter fun j => !(placeJob j).isExcluded).length
      = (jobs.filter fun j => (placeJob j).isCoords).length
        + (jobs.filter fun j => (placeJob j).isText).length := by
  induction jobs with
  | nil => rfl
  | cons j js ih =>
    cases hp : placeJob j <;> simp +arith [List.filter_cons, hp, ih]

lemma isExcluded_eq (j : Job) :
    (placeJob j).isExcluded
      = (!(j.latitude.isSome && j.longitude.isSome) && (trimmedLoc j == "")) := by
  unfold placeJob
  cases hl : j.latitude <;> cases hn : j.longitude <;>
    by_cases h : trimmedLoc j = "" <;> simp [h]

lemma excluded_loc_empty {j : Job} (h : placeJob j = Placement.excluded) :
    trimmedLoc j = "" := by
  by_contra hne
  unfold placeJob at h
  cases hl : j.latitude <;> cases hn : j.longitude <;>
    rw [hl, hn] at h <;> simp [hne] at h

lemma coordPlacementsFrom_append (xs ys : List Job) : ∀ n,
    coordPlacementsFrom n (xs ++ ys)
      = coordPlacementsFrom n xs ++ coordPlacementsFrom (n + xs.length) ys := by
  induction xs with
  | nil => intro n; simp [coordPlacementsFrom]
  | cons j js ih =>
    intro n
    have harith : n + 1 + js.length = n + (js.length + 1) := by omega
    cases hp : placeJob j <;>
      simp [coordPlacementsFrom, hp, ih, List.length_cons, ← harith]

lemma lookup_number_row (i : Nat) (j : Job) :
    List.lookup "number" (legendRow i j) = some (JVal.s (_marker_label (i + 1))) := rfl

@[simp] lemma legendNumbers_cons_row (i : Nat) (j : Job)
    (rows : List (List (String × JVal))) :
    legendNumbers (legendRow i j :: rows)
      = _marker_label (i + 1) :: legendNumbers rows := rfl

lemma legendNumbers_rows (rows : List (Nat × Job)) :
    legendNumbers (rows.map fun p => legendRow p.1 p.2)
      = rows.map fun p => _marker_label (p.1 + 1) := by
  induction rows with
  | nil => rfl
  | cons r rs ih => simp only [List.map_cons, legendNumbers_cons_row, ih]

lemma legendNumbers_structured_go (jobs : List Job) : ∀ k,
    legendNumbers ((List.enumFrom k jobs).map fun p => legendRow p.1 p.2)
      = (List.range' (k + 1) jobs.length).map _marker_label := by
  induction jobs with
  | nil => intro k; rfl
  | cons j js ih =>
    intro k
    simp only [List.enumFrom, List.map_cons, legendNumbers_cons_row, ih,
      List.length_cons, List.range']

lemma legendNumbers_structured (jobs : List Job) :
    legendNumbers (structured_jobs jobs)
      = (List.range' 1 jobs.length).map _marker_label := by
  have h := legendNumbers_structured_go jobs 0
  simpa [structured_jobs, List.enum] using h

lemma enumFrom_label_fst (l : List Job) : ∀ n,
    ((List.enumFrom n l).map fun p => _marker_label p.1)
      = (List.range' n l.length).map _marker_label := by
  induction l with
  | nil => intro n; rfl
  | cons x xs ih =>
    intro n
    simp only [List.enumFrom, List.map_cons, ih, List.length_cons, List.range']

lemma build_parts_eq (jobs : List Job) :
    _build_markers_parts jobs
      = (locPlacements jobs).map fun p => markerPart p.1 p.2 := by
  rw [_build_markers_parts, locPlacements, List.map_filterMap]
  congr 1
  funext p
  by_cases h : trimmedLoc p.2 = "" <;> simp [h]

lemma build_parts_all_go (jobs : List Job) (h : ∀ j ∈ jobs, trimmedLoc j ≠ "") :
    ∀ n,
    ((List.enumFrom n jobs).filterMap fun p =>
        if trimmedLoc p.2 = "" then none
        else some (_marker_label p.1, _encode_location (trimmedLoc p.2)))
      = (List.enumFrom n jobs).map fun p =>
          (_marker_label p.1, _encode_location (trimmedLoc p.2)) := by
  induction jobs with
  | nil => intro n; rfl
  | cons j js ih =>
    intro n
    have hj : ¬trimmedLoc j = "" := h j (by simp)
    have hrest := ih fun a ha => h a (by simp [ha])
    simp only [List.enumFrom, List.filterMap_cons, List.map_cons, hrest]
    simp [hj]

lemma locPlacements_all (jobs : List Job) (h : ∀ j ∈ jobs, trimmedLoc j ≠ "") :
    locPlacements jobs = (List.enumFrom 1 jobs).map fun p =>
      (_marker_label p.1, _encode_location (trimmedLoc p.2)) := by
  rw [locPlacements, build_parts_all_go jobs h 1]

/-- C2: the label assigner returns digits for 1-9, but for n = 10 it returns
"J" (the source computes `chr(64 + index)` instead of `chr(64 + index - 9)`),
not "A" as documented; at 35 it yields "c", not "Z". -/
theorem marker_label_after_nine :
    _marker_label 9 = "9" ∧ _marker_label 10 = "J" ∧ _marker_label 10 ≠ "A"
      ∧ _marker_label 35 = "c" ∧ _marker_label 35 ≠ "Z" :=
  ⟨rfl, rfl, by decide, rfl, by decide⟩

/-- C1: at the concrete input `[jobBlank, jobRome]` the coordinate-preferring
tool labels the only URL marker "2" (original position) while the legend
numbers its only row "1" (compacted position): the marker/legend label
sequences differ. -/
theorem marker_legend_mismatch :
    (coordScan [jobBlank, jobRome]).markers_parts
      = ["markers=color:red%7Clabel:2%7CRome"]
    ∧ legendNumbers (structured_jobs (coordScan [jobBlank, jobRome]).valid_jobs)
      = ["1"]
    ∧ List.lookup "map_url"
        (render_jobs_map_by_coordinates (some "KEY") [jobBlank, jobRome])
      = some (JVal.s ("https://maps.googleapis.com/maps/api/staticmap?size=700x420&maptype=roadmap&markers=color:red%7Clabel:2%7CRome&key=KEY"))
    ∧ (["2"] : List String) ≠ ["1"] :=
  ⟨rfl, rfl, rfl, by decide⟩

/-- C6: the location encoder trims, then maps each space to "+" and each
comma to "%2C" leaving every other character unchanged; hence its output
contains no literal space and no literal comma. -/
theorem encode_location_chars (s : String) :
    (_encode_location s).data
      = (pyStrip s).data.flatMap (fun c =>
          if c = ' ' then ['+'] else if c = ',' then ['%', '2', 'C'] else [c])
    ∧ ' ' ∉ (_encode_location s).data
    ∧ ',' ∉ (_encode_location s).data := by
  have he : (_encode_location s).data
      = (pyStrip s).data.flatMap (fun c =>
          if c = ' ' then ['+'] else if c = ',' then ['%', '2', 'C'] else [c]) :=
    encode_data_eq (pyStrip s).data
  refine ⟨he, ?_, ?_⟩ <;> rw [he] <;> intro hmem <;>
    rcases List.mem_flatMap.1 hmem with ⟨c, _, hc⟩
  · by_cases h1 : c = ' '
    · simp [h1] at hc
    · by_cases h2 : c = ','
      · simp [h2] at hc
      · simp [h1, h2] at hc
        exact h1 hc.symm
  · by_cases h1 : c = ' '
    · simp [h1] at hc
    · by_cases h2 : c = ','
      · simp [h2] at hc
      · simp [h1, h2] at hc
        exact h2 hc.symm

/-- C9: when the access key is absent (unset or empty), every mode returns
the configuration-error envelope {status: "error", error: message} with no
map URL, whatever the job list. -/
theorem missing_key_config_error (key : Option String) (jobs : List Job)
    (h : keyMissing key = true) :
    render_jobs_map key jobs
      = [("status", JVal.s "error"),
         ("error", JVal.s "GOOGLE_MAPS_API_KEY not configured on the server.")]
    ∧ render_jobs_map_by_coordinates key jobs
      = [("status", JVal.s "error"),
         ("error", JVal.s "GOOGLE_MAPS_API_KEY not configured on the server.")]
    ∧ List.lookup "map_url" (render_jobs_map key jobs) = none
    ∧ List.lookup "map_url" (render_jobs_map_by_coordinates key jobs) = none
    ∧ render_jobs_map_narrative key jobs
      = TextResult.err "GOOGLE_MAPS_API_KEY not configured on the server."
    ∧ render_jobs_map_document key jobs
      = TextResult.err "GOOGLE_MAPS_API_KEY not configured on the server." := by
  refine ⟨?_, ?_, ?_, ?_, ?_, ?_⟩ <;>
    simp [render_jobs_map, render_jobs_map_by_coordinates,
      render_jobs_map_narrative, render_jobs_map_document, h, List.lookup]

/-- Witness for C9 at a concrete input: no key configured, one fully
populated job. -/
theorem missing_key_config_error_witness :
    keyMissing none = true
    ∧ (render_jobs_map none [jobRome]
        = [("status", JVal.s "error"),
           ("error", JVal.s "GOOGLE_MAPS_API_KEY not configured on the server.")]
      ∧ render_jobs_map_by_coordinates none [jobRome]
        = [("status", JVal.s "error"),
           ("error", JVal.s "GOOGLE_MAPS_API_KEY not configured on the server.")]
      ∧ List.lookup "map_url" (render_jobs_map none [jobRome]) = none
      ∧ List.lookup "map_url" (render_jobs_map_by_coordinates none [jobRome]) = none
      ∧ render_jobs_map_narrative none [jobRome]
        = TextResult.err "GOOGLE_MAPS_API_KEY not configured on the server."
      ∧ render_jobs_map_document none [jobRome]
        = TextResult.err "GOOGLE_MAPS_API_KEY not configured on the server.") :=
  ⟨rfl, missing_key_config_error none [jobRome] rfl⟩

/-- C3: a job whose latitude and longitude are both numeric is placed by
coordinates — even when a location string is also present — and at every
position of every input list its rendered marker location is the raw
"lat,lng" string, comma preserved, with no encoding applied. -/
theorem coordinates_preferred_raw (pre post : List Job) (j : Job)
    (la ln : String) (hla : j.latitude = some la) (hln : j.longitude = some ln) :
    placeJob j = Placement.coords la ln
    ∧ coordPlacements (pre ++ j :: post)
        = coordPlacements pre
          ++ (_marker_label (1 + pre.length), la ++ "," ++ ln)
            :: coordPlacementsFrom (1 + pre.length + 1) post
    ∧ (coordScan (pre ++ j :: post)).markers_parts
        = (coordPlacements (pre ++ j :: post)).map fun p => markerPart p.1 p.2 := by
  have hpj : placeJob j = Placement.coords la ln := by
    unfold placeJob; rw [hla, hln]
  refine ⟨hpj, ?_, ?_⟩
  · rw [coordPlacements, coordPlacementsFrom_append]
    simp [coordPlacementsFrom, hpj, coordPlacements]
  · rw [coordScan_eq]

/-- Witness for C3: `jobCoords` has coordinates 41.9/12.5 and also the
location string "Milano, Italy"; as sole input its marker renders
"41.9,12.5". -/
theorem coordinates_preferred_raw_witness :
    jobCoords.latitude = some "41.9" ∧ jobCoords.longitude = some "12.5"
    ∧ (placeJob jobCoords = Placement.coords "41.9" "12.5"
      ∧ coordPlacements ([] ++ jobCoords :: [])
          = coordPlacements []
            ++ (_marker_label (1 + List.length ([] : List Job)),
                  "41.9" ++ "," ++ "12.5")
              :: coordPlacementsFrom (1 + List.length ([] : List Job) + 1) []
      ∧ (coordScan ([] ++ jobCoords :: [])).markers_parts
          = (coordPlacements ([] ++ jobCoords :: [])).map
              fun p => markerPart p.1 p.2) :=
  ⟨rfl, rfl, coordinates_preferred_raw [] [] jobCoords "41.9" "12.5" rfl rfl⟩

/-- C5: under the location-only policy a job is retained iff its trimmed
location is non-empty, and the retained jobs — kept in input order — carry
the labels of the contiguous ordinals 1..K (K retained jobs) both in the
legend numbers and in the URL marker sequence, with no gaps. -/
theorem location_only_contiguous_labels (jobs : List Job) :
    (∀ j, j ∈ jobs.filter (fun j => trimmedLoc j != "")
        ↔ j ∈ jobs ∧ trimmedLoc j ≠ "")
    ∧ legendNumbers (structured_jobs (jobs.filter fun j => trimmedLoc j != ""))
        = (List.range' 1 (jobs.filter fun j => trimmedLoc j != "").length).map
            _marker_label
    ∧ (locPlacements (jobs.filter fun j => trimmedLoc j != "")).map Prod.fst
        = (List.range' 1 (jobs.filter fun j => trimmedLoc j != "").length).map
            _marker_label
    ∧ _build_markers_parts (jobs.filter fun j => trimmedLoc j != "")
        = (locPlacements (jobs.filter fun j => trimmedLoc j != "")).map
            fun p => markerPart p.1 p.2 := by
  have hall : ∀ j ∈ jobs.filter (fun j => trimmedLoc j != ""),
      trimmedLoc j ≠ "" := by
    intro j hj
    have := (List.mem_filter.1 hj).2
    simpa using this
  refine ⟨?_, legendNumbers_structured _, ?_, build_parts_eq _⟩
  · intro j
    simp [List.mem_filter]
  · rw [locPlacements_all _ hall, List.map_map]
    exact enumFrom_label_fst _ 1

/-- C7: the built URL is exactly prefix ++ markers ++ "&key=" ++ key, where
the markers block is the "&"-joined marker segments in placement order and
the key is appended last, verbatim — for the shared builder and for the
coordinate-preferring tool's envelope URL. -/
theorem map_url_shape (key : String) (jobs cjobs : List Job)
    (hkey : key ≠ "") (hne : locPlacements jobs ≠ [])
    (hc : (coordScan cjobs).valid_jobs ≠ []) (hcne : cjobs ≠ []) :
    _build_map_url key jobs
      = baseUrl ++ String.intercalate "&"
          ((locPlacements jobs).map fun p => markerPart p.1 p.2)
        ++ "&key=" ++ key
    ∧ List.lookup "map_url" (render_jobs_map_by_coordinates (some key) cjobs)
      = some (JVal.s (baseUrl ++ String.intercalate "&"
          ((coordPlacements cjobs).map fun p => markerPart p.1 p.2)
        ++ "&key=" ++ key)) := by
  constructor
  · rw [_build_map_url, build_parts_eq]
  · have hk : keyMissing (some key) = false := by simp [keyMissing, hkey]
    have hje : cjobs.isEmpty = false := by simp [List.isEmpty_iff, hcne]
    have hv : (coordScan cjobs).valid_jobs.isEmpty = false := by
      simp [List.isEmpty_iff, hc]
    have hm : (coordScan cjobs).markers_parts
        = (coordPlacements cjobs).map fun p => markerPart p.1 p.2 := by
      rw [coordScan_eq]
    simp [render_jobs_map_by_coordinates, hk, hje, hv, hm, List.lookup]

/-- Witness for C7 at a concrete input: one placed job, key "KEY". -/
theorem map_url_shape_witness :
    ("KEY" : String) ≠ "" ∧ locPlacements [jobRome] ≠ []
    ∧ (coordScan [jobRome]).valid_jobs ≠ [] ∧ ([jobRome] : List Job) ≠ []
    ∧ (_build_map_url "KEY" [jobRome]
        = baseUrl ++ String.intercalate "&"
            ((locPlacements [jobRome]).map fun p => markerPart p.1 p.2)
          ++ "&key=" ++ "KEY"
      ∧ List.lookup "map_url"
          (render_jobs_map_by_coordinates (some "KEY") [jobRome])
        = some (JVal.s (baseUrl ++ String.intercalate "&"
            ((coordPlacements [jobRome]).map fun p => markerPart p.1 p.2)
          ++ "&key=" ++ "KEY"))) :=
  ⟨by decide, by decide, by decide, by decide,
    map_url_shape "KEY" [jobRome] [jobRome] (by decide) (by decide)
      (by decide) (by decide)⟩

/-- C4: whenever the coordinate-preferring tool returns a non-error envelope,
its total equals by_coordinates + by_location, and its skipped field counts
exactly the input jobs with neither numeric coordinates nor a non-empty
trimmed location. -/
theorem coord_counters_consistent (key : Option String) (jobs : List Job)
    (h : List.lookup "status" (render_jobs_map_by_coordinates key jobs) = none) :
    List.lookup "total" (render_jobs_map_by_coordinates key jobs)
      = some (JVal.n ((coordScan jobs).by_coordinates
          + (coordScan jobs).by_location))
    ∧ List.lookup "by_coordinates" (render_jobs_map_by_coordinates key jobs)
      = some (JVal.n (coordScan jobs).by_coordinates)
    ∧ List.lookup "by_location" (render_jobs_map_by_coordinates key jobs)
      = some (JVal.n (coordScan jobs).by_location)
    ∧ List.lookup "skipped" (render_jobs_map_by_coordinates key jobs)
      = some (JVal.n (jobs.filter fun j =>
          !(j.latitude.isSome && j.longitude.isSome)
            && (trimmedLoc j == "")).length) := by
  by_cases hk : keyMissing key
  · simp [render_jobs_map_by_coordinates, hk, List.lookup] at h
  · by_cases hj : jobs.isEmpty
    · simp [render_jobs_map_by_coordinates, hk, hj, List.lookup] at h
    · by_cases hv : (coordScan jobs).valid_jobs.isEmpty
      · simp [render_jobs_map_by_coordinates, hk, hj, hv, List.lookup] at h
      · have hsk : (coordScan jobs).skipped
            = (jobs.filter fun j =>
                !(j.latitude.isSome && j.longitude.isSome)
                  && (trimmedLoc j == "")).length := by
          rw [coordScan_eq]
          simp only [isExcluded_eq]
        have htot : (coordScan jobs).valid_jobs.length
            = (coordScan jobs).by_coordinates + (coordScan jobs).by_location := by
          rw [coordScan_eq]
          exact placed_length jobs
        refine ⟨?_, ?_, ?_, ?_⟩ <;>
          simp [render_jobs_map_by_coordinates, hk, hj, hv, List.lookup,
            htot, hsk]

/-- Witness for C4 at a concrete input: one text placement, one coordinate
placement, one skipped job. -/
theorem coord_counters_consistent_witness :
    List.lookup "status"
        (render_jobs_map_by_coordinates (some "KEY") [jobRome, jobCoords, jobBlank])
      = none
    ∧ (List.lookup "total"
          (render_jobs_map_by_coordinates (some "KEY") [jobRome, jobCoords, jobBlank])
        = some (JVal.n ((coordScan [jobRome, jobCoords, jobBlank]).by_coordinates
            + (coordScan [jobRome, jobCoords, jobBlank]).by_location))
      ∧ List.lookup "by_coordinates"
          (render_jobs_map_by_coordinates (some "KEY") [jobRome, jobCoords, jobBlank])
        = some (JVal.n (coordScan [jobRome, jobCoords, jobBlank]).by_coordinates)
      ∧ List.lookup "by_location"
          (render_jobs_map_by_coordinates (some "KEY") [jobRome, jobCoords, jobBlank])
        = some (JVal.n (coordScan [jobRome, jobCoords, jobBlank]).by_location)
      ∧ List.lookup "skipped"
          (render_jobs_map_by_coordinates (some "KEY") [jobRome, jobCoords, jobBlank])
        = some (JVal.n (([jobRome, jobCoords, jobBlank] : List Job).filter (fun j =>
            !(j.latitude.isSome && j.longitude.isSome)
              && (trimmedLoc j == ""))).length)) :=
  ⟨rfl, coord_counters_consistent (some "KEY") [jobRome, jobCoords, jobBlank] rfl⟩

/-- C8: whenever zero jobs survive a mode's own placement filtering, that
mode returns an error value carrying no map URL. For the three location-only
modes the filter drops exactly the jobs with an empty trimmed location
(covering the empty input list); for the coordinate-preferring tool zero
survivors means every job is excluded by its three-way branch. -/
theorem empty_or_filtered_error (key : Option String) (jobs : List Job)
    (h : ∀ j ∈ jobs, trimmedLoc j = "") :
    isErrorNoUrl (render_jobs_map key jobs)
    ∧ (∃ m, render_jobs_map_narrative key jobs = TextResult.err m)
    ∧ (∃ m, render_jobs_map_document key jobs = TextResult.err m)
    ∧ ((∀ j ∈ jobs, placeJob j = Placement.excluded) →
        isErrorNoUrl (render_jobs_map_by_coordinates key jobs)) := by
  have hfil : (jobs.filter fun j => trimmedLoc j != "") = [] := by
    rw [List.filter_eq_nil_iff]
    intro a ha
    simp [h a ha]
  refine ⟨?_, ?_, ?_, ?_⟩
  · unfold isErrorNoUrl
    by_cases hk : keyMissing key <;> by_cases hj : jobs.isEmpty <;>
      simp [render_jobs_map, hk, hj, hfil, List.lookup]
  · by_cases hk : keyMissing key <;> by_cases hj : jobs.isEmpty <;>
      simp [render_jobs_map_narrative, hk, hj, hfil]
  · by_cases hk : keyMissing key <;> by_cases hj : jobs.isEmpty <;>
      simp [render_jobs_map_document, hk, hj, hfil]
  · intro hexc
    have hval : (coordScan jobs).valid_jobs = [] := by
      rw [coordScan_eq]
      rw [List.filter_eq_nil_iff]
      intro a ha
      simp [hexc a ha]
    unfold isErrorNoUrl
    by_cases hk : keyMissing key <;> by_cases hj : jobs.isEmpty <;>
      simp [render_jobs_map_by_coordinates, hk, hj, hval, List.lookup]

/-- Witness for C8 at a concrete input: a configured key and one job with
numeric coordinates but no location, so zero jobs survive location filtering
even though the job is not excluded under the coordinate policy. -/
theorem empty_or_filtered_error_witness :
    (∀ j ∈ ([jobCoordsOnly] : List Job), trimmedLoc j = "")
    ∧ (isErrorNoUrl (render_jobs_map (some "KEY") [jobCoordsOnly])
      ∧ (∃ m, render_jobs_map_narrative (some "KEY") [jobCoordsOnly]
          = TextResult.err m)
      ∧ (∃ m, render_jobs_map_document (some "KEY") [jobCoordsOnly]
          = TextResult.err m)
      ∧ ((∀ j ∈ ([jobCoordsOnly] : List Job), placeJob j = Placement.excluded) →
          isErrorNoUrl
            (render_jobs_map_by_coordinates (some "KEY") [jobCoordsOnly]))) :=
  ⟨by decide, empty_or_filtered_error (some "KEY") [jobCoordsOnly] (by decide)⟩

/-- C10: when the key is configured, the input is non-empty and every job is
excluded, the coordinate-preferring tool's error envelope carries the extra
skipped field equal to the whole input length, while the location-only
tool's envelopes never contain a skipped field. -/
theorem skipped_field_error_envelope (key : String) (jobs : List Job)
    (hkey : key ≠ "") (hne : jobs ≠ [])
    (h : ∀ j ∈ jobs, placeJob j = Placement.excluded) :
    render_jobs_map_by_coordinates (some key) jobs
      = [("status", JVal.s "error"), ("skipped", JVal.n jobs.length),
         ("error", JVal.s "No jobs could be placed on the map.")]
    ∧ ∀ (k : Option String) (js : List Job),
        List.lookup "skipped" (render_jobs_map k js) = none := by
  constructor
  · have hk : keyMissing (some key) = false := by simp [keyMissing, hkey]
    have hj : jobs.isEmpty = false := by simp [List.isEmpty_iff, hne]
    have hval : (coordScan jobs).valid_jobs = [] := by
      rw [coordScan_eq]
      rw [List.filter_eq_nil_iff]
      intro a ha
      simp [h a ha]
    have hsk : (coordScan jobs).skipped = jobs.length := by
      rw [coordScan_eq]
      have hself : jobs.filter (fun j => (placeJob j).isExcluded) = jobs := by
        rw [List.filter_eq_self]
        intro a ha
        simp [h a ha]
      simp [hself]
    simp [render_jobs_map_by_coordinates, hk, hj, hval, hsk]
  · intro k js
    by_cases hk : keyMissing k <;> by_cases hj : js.isEmpty <;>
      by_cases hv : (js.filter fun j => trimmedLoc j != "").isEmpty <;>
        simp [render_jobs_map, hk, hj, hv, List.lookup]

/-- Witness for C10 at a concrete input: key "KEY" and one excluded job. -/
theorem skipped_field_error_envelope_witness :
    ("KEY" : String) ≠ "" ∧ ([jobBlank] : List Job) ≠ []
    ∧ (∀ j ∈ ([jobBlank] : List Job), placeJob j = Placement.excluded)
    ∧ (render_jobs_map_by_coordinates (some "KEY") [jobBlank]
        = [("status", JVal.s "error"), ("skipped", JVal.n 1),
           ("error", JVal.s "No jobs could be placed on the map.")]
      ∧ ∀ (k : Option String) (js : List Job),
          List.lookup "skipped" (render_jobs_map k js) = none) :=
  ⟨by decide, by decide, by decide,
    skipped_field_error_envelope "KEY" [jobBlank] (by decide) (by decide)
      (by decide)⟩
